import Mathlib

/-!
Shallow embedding of the BART web app backend.

The embedding covers the two source files of the repository:

* `app.py` — the Flask request handlers `get_stations`, `get_departures`,
  `get_station_analytics` and `get_performance_data`.  Each handler is
  modelled as a pure function from its inputs (the upstream fetch result,
  the database state, the current wall-clock time, the timestamp string
  produced by `datetime.now().isoformat()`) to a pair of an HTTP status
  code and a JSON body.  The `try/except` structure of a handler is
  modelled by `Except`: an exception raised anywhere inside the `try`
  block is an `Except.error` carrying the stringified message, and the
  `except` clause maps it to the handler's error envelope.

* `database.py` — the `BartDatabase` class.  The SQLite database is a
  record of three tables (lists of rows) together with the autoincrement
  counters of the two tables that have an `INTEGER PRIMARY KEY
  AUTOINCREMENT` column.  Each method becomes a state-passing function.

Time is modelled as an integer number of seconds since an arbitrary
epoch; `date(...)` of a timestamp is its day number, and the SQLite
7-day window `datetime('now', '-7 days')` is `now - 604800` seconds.
-/

namespace BartApp

/-- JSON values, used for the wire-level response bodies produced by
`jsonify`.  An object is an ordered list of key/value pairs. -/
inductive JVal where
  | str : String → JVal
  | int : Int → JVal
  | rat : Rat → JVal
  | arr : List JVal → JVal
  | obj : List (String × JVal) → JVal

/-- Field lookup in a JSON object; `none` when the key is absent or the
value is not an object. -/
def jGet : JVal → String → Option JVal
  | JVal.obj fs, k => fs.lookup k
  | _, _ => none

/-- Value of one decimal digit character. -/
def digitVal (c : Char) : Option Nat :=
  if c.isDigit then some (c.toNat - 48) else none

/-- Accumulate a run of decimal digits; fails on the first non-digit. -/
def digitsToN (acc : Nat) : List Char → Option Nat
  | [] => some acc
  | c :: r =>
    match digitVal c with
    | none => none
    | some d => digitsToN (acc * 10 + d) r

/-- Model of Python `int(s)` on a string: an optional leading minus sign
followed by a nonempty run of decimal digits; anything else raises
`ValueError`, modelled as `Except.error` with the CPython message. -/
def pyInt (s : String) : Except String Int :=
  match s.data with
  | [] => Except.error ("invalid literal for int() with base 10: " ++ s)
  | '-' :: rest =>
    match rest with
    | [] => Except.error ("invalid literal for int() with base 10: " ++ s)
    | _ =>
      match digitsToN 0 rest with
      | some n => Except.ok (-(n : Int))
      | none => Except.error ("invalid literal for int() with base 10: " ++ s)
  | cs =>
    match digitsToN 0 cs with
    | some n => Except.ok ((n : Int))
    | none => Except.error ("invalid literal for int() with base 10: " ++ s)

/-! ## Upstream payload shapes (BART etd / stn endpoints)

The upstream JSON for `etd.aspx` has shape
`{root: {station: [{etd: [{destination, estimate: [{minutes, platform,
direction, length}]}]}]}}`, where each of the keys `root`, `station` and
`etd` may be absent (`Option`).  The numeric fields `minutes` and
`length` arrive as strings. -/

/-- One time estimate inside a destination group. -/
structure UpEstimate where
  minutes : String
  platform : String
  direction : String
  length : String
deriving DecidableEq

/-- One destination group (`etd` entry). -/
structure UpEtd where
  destination : String
  estimate : List UpEstimate
deriving DecidableEq

/-- One station block; the `etd` key may be absent. -/
structure UpStationBlock where
  etd : Option (List UpEtd)
deriving DecidableEq

/-- The `root` object; the `station` key may be absent. -/
structure UpRoot where
  station : Option (List UpStationBlock)
deriving DecidableEq

/-- A whole `etd.aspx` payload; the `root` key may be absent. -/
structure UpDeparturesPayload where
  root : Option UpRoot
deriving DecidableEq

/-- One entry of the upstream station list (`stn.aspx`), after projecting
the two fields the handler reads. -/
structure UpStationEntry where
  name : String
  abbr : String
deriving DecidableEq

/-- A normalized departure record as built inside `get_departures`. -/
structure DepartureRec where
  timestamp : String
  destination : String
  minutes : Int
  platform : String
  direction : String
  delay : Int
  length : Int
deriving DecidableEq

/-- Build one normalized departure record from one upstream estimate,
mirroring the dict literal in `get_departures`:
`minutes` is `int(estimate['minutes'] if estimate['minutes'] != 'Leaving'
else '0')`, `delay` is the constant 0, `length` is
`int(estimate['length'])`.  A failing `int()` raises, i.e. returns
`Except.error`. -/
def mkDeparture (ts : String) (dest : String) (e : UpEstimate) :
    Except String DepartureRec :=
  match pyInt (if e.minutes ≠ "Leaving" then e.minutes else "0") with
  | Except.error er => Except.error er
  | Except.ok m =>
    match pyInt e.length with
    | Except.error er => Except.error er
    | Except.ok len =>
      Except.ok { timestamp := ts, destination := dest, minutes := m,
                  platform := e.platform, direction := e.direction,
                  delay := 0, length := len }

/-- The nested `for etd in station_data['etd']` / `for estimate in
etd['estimate']` loops, appending one record per estimate. -/
def buildDeps (ts : String) : List UpEtd → Except String (List DepartureRec)
  | [] => Except.ok []
  | e :: rest => do
    let ds ← e.estimate.mapM (mkDeparture ts e.destination)
    let more ← buildDeps ts rest
    pure (ds ++ more)

/-- The body of the `try` block of `get_departures` after a successful
fetch: the guards `'root' in data and 'station' in data['root']` and
`'etd' in station_data` yield an empty list when a key is absent;
`data['root']['station'][0]` raises `IndexError: list index out of range`
when the station list is empty. -/
def departuresBody (ts : String) (p : UpDeparturesPayload) :
    Except String (List DepartureRec) :=
  match p.root with
  | none => Except.ok []
  | some r =>
    match r.station with
    | none => Except.ok []
    | some [] => Except.error "list index out of range"
    | some (s0 :: _) =>
      match s0.etd with
      | none => Except.ok []
      | some etds => buildDeps ts etds

/-- JSON rendering of one normalized departure record. -/
def depToJson (d : DepartureRec) : JVal :=
  JVal.obj [("timestamp", JVal.str d.timestamp),
            ("destination", JVal.str d.destination),
            ("minutes", JVal.int d.minutes),
            ("platform", JVal.str d.platform),
            ("direction", JVal.str d.direction),
            ("delay", JVal.int d.delay),
            ("length", JVal.int d.length)]

/-- The error envelope of `get_departures`: status, timestamp, message and
an empty departures list, returned with HTTP 500. -/
def departuresErrorBody (ts e : String) : JVal :=
  JVal.obj [("status", JVal.str "Error"), ("timestamp", JVal.str ts),
            ("error", JVal.str e), ("departures", JVal.arr [])]

/-- Handler `GET /api/departures/<station>`.  `fetched` is the result of
the upstream fetch (transport failures and `raise_for_status` are
`Except.error`); `ts` stands for `datetime.now().isoformat()`. -/
def get_departures (fetched : Except String UpDeparturesPayload)
    (ts : String) : Nat × JVal :=
  match fetched with
  | Except.error e => (500, departuresErrorBody ts e)
  | Except.ok p =>
    match departuresBody ts p with
    | Except.error e => (500, departuresErrorBody ts e)
    | Except.ok deps =>
      (200, JVal.obj [("status", JVal.str "Data available"),
                      ("timestamp", JVal.str ts),
                      ("departures", JVal.arr (deps.map depToJson))])

/-- Handler `GET /api/stations`.  On success the body is a bare JSON
array of `{name, abbr}` objects; on any exception the body is
`{"error": str(e)}` with HTTP 500. -/
def get_stations (fetched : Except String (List UpStationEntry)) :
    Nat × JVal :=
  match fetched with
  | Except.error e => (500, JVal.obj [("error", JVal.str e)])
  | Except.ok l =>
    (200, JVal.arr (l.map fun s =>
      JVal.obj [("name", JVal.str s.name), ("abbr", JVal.str s.abbr)]))

/-! ## The SQLite database (`database.py`)

Rows of the three tables created by `create_tables`.  A column that may
be NULL is an `Option`; `TIMESTAMP`/`DATETIME` columns hold a time as an integer number of
seconds since an epoch, `DATE` columns hold a day number. -/

/-- Floor of a rational as an integer (the numerator floor-divided by
the positive denominator). -/
def ratFloor (q : Rat) : Int := Int.fdiv q.num (q.den : Int)

/-- `date(t)` of a timestamp in seconds: its day number. -/
def dayOf (t : Int) : Int := Int.fdiv t 86400

/-- A row of the `stations` table (`id` is the TEXT primary key; the
`created_at` default column is omitted as no query reads it). -/
structure StationRow where
  id : String
  name : String
  abbr : String
  city : Option String
  county : Option String
  state : Option String
  zipcode : Option String
deriving DecidableEq

/-- A row of the `departures` table.  `id` is the autoincrement primary
key; `timestamp` and `created_at` both default to CURRENT_TIMESTAMP;
`date` is the DATE column filled in by `save_departure`. -/
structure DepartureRow where
  id : Nat
  station_id : String
  destination : String
  platform : Option String
  minutes : Int
  direction : String
  color : Option String
  length : Option Int
  bike_flag : Option Int
  delay : Int
  timestamp : Int
  date : Int
  created_at : Int
deriving DecidableEq

/-- A row of the `daily_stats` table.  Its only uniqueness constraint is
the autoincrement primary key `id`; there is no UNIQUE constraint on
`(station_id, date)`. -/
structure DailyStatRow where
  id : Nat
  station_id : String
  date : Int
  total_departures : Nat
  delayed_departures : Nat
  avg_delay_minutes : Rat
  max_delay_minutes : Int
deriving DecidableEq

/-- The database state: the three tables plus the next autoincrement id
of `departures` and of `daily_stats`. -/
structure DB where
  stations : List StationRow
  departures : List DepartureRow
  daily_stats : List DailyStatRow
  nextDepId : Nat
  nextStatId : Nat
deriving DecidableEq

/-- A database fresh from `create_tables`: all tables empty, SQLite
autoincrement counters starting at 1. -/
def emptyDB : DB := { stations := [], departures := [], daily_stats := [],
                      nextDepId := 1, nextStatId := 1 }

/-- The `station_data` dict passed to `save_station`: `id`, `name`,
`abbr` are read with `[]`, the rest with `.get` (so possibly absent). -/
structure StationData where
  id : String
  name : String
  abbr : String
  city : Option String
  county : Option String
  state : Option String
  zipcode : Option String
deriving DecidableEq

/-- The row inserted by `save_station` for a given dict. -/
def stationRowOf (s : StationData) : StationRow :=
  { id := s.id, name := s.name, abbr := s.abbr, city := s.city,
    county := s.county, state := s.state, zipcode := s.zipcode }

/-- `save_station`: `INSERT OR REPLACE INTO stations`.  The conflict
target is the TEXT primary key `id`, so any existing row with the same
`id` is deleted and the new row inserted. -/
def save_station (db : DB) (s : StationData) : DB :=
  { db with stations :=
      db.stations.filter (fun r => decide (r.id ≠ s.id)) ++ [stationRowOf s] }

/-- The `departure_data` dict passed to `save_departure`; `delay` is read
with `.get('delay', 0)`. -/
structure DepartureData where
  station_id : String
  destination : String
  platform : Option String
  minutes : Int
  direction : String
  color : Option String
  length : Option Int
  bike_flag : Option Int
  delay : Option Int
deriving DecidableEq

/-- The row inserted by `save_departure` at time `now` when the next
autoincrement id is `i`: the `date` column is
`datetime.now().strftime('%Y-%m-%d')`, i.e. the current day, and the
`timestamp` and `created_at` columns take their CURRENT_TIMESTAMP
defaults. -/
def depRowOf (i : Nat) (d : DepartureData) (now : Int) : DepartureRow :=
  { id := i, station_id := d.station_id, destination := d.destination,
    platform := d.platform, minutes := d.minutes, direction := d.direction,
    color := d.color, length := d.length, bike_flag := d.bike_flag,
    delay := d.delay.getD 0, timestamp := now, date := dayOf now,
    created_at := now }

/-- `save_departure`: a plain `INSERT INTO departures` executed at wall
clock time `now`. -/
def save_departure (db : DB) (d : DepartureData) (now : Int) : DB :=
  { db with departures := db.departures ++ [depRowOf db.nextDepId d now],
            nextDepId := db.nextDepId + 1 }

/-- Python `x or 0` on a nullable SQL real: `None` and `0.0` are falsy. -/
def pyOrRat (x : Option Rat) : Rat :=
  match x with
  | none => 0
  | some q => if q = 0 then 0 else q

/-- Python `x or 0` on a nullable SQL integer. -/
def pyOrInt (x : Option Int) : Int :=
  match x with
  | none => 0
  | some n => if n = 0 then 0 else n

/-- Python `s or alt` on a string: the empty string is falsy. -/
def pyOrStr (s alt : String) : String := if s = "" then alt else s

/-- The aggregate query of `update_daily_stats` over the rows matching
`station_id = ? AND date(created_at) = ?`:
`COUNT(*)`, `SUM(CASE WHEN delay > 0 THEN 1 ELSE 0 END)`,
`AVG(CASE WHEN delay > 0 THEN delay ELSE NULL END)` (NULL when no row is
delayed, and also NULL when there are no rows at all — SUM over zero rows
is likewise NULL, both read back through `or 0`), and
`MAX(CASE WHEN delay > 0 THEN delay ELSE 0 END)` (NULL when there are no
rows). -/
def dailyStatsQuery (rows : List DepartureRow) :
    Nat × Nat × Option Rat × Option Int :=
  let delayedRows := rows.filter (fun r => decide (0 < r.delay))
  (rows.length,
   delayedRows.length,
   (if delayedRows.isEmpty then none
    else some ((((delayedRows.map (fun r => r.delay)).sum : Int) : Rat) /
               (delayedRows.length : Rat))),
   (if rows.isEmpty then none
    else some ((rows.map (fun r => if 0 < r.delay then r.delay else 0)).foldl
                 max 0)))

/-- `update_daily_stats(station_id, date)`: runs the aggregate query and
then `INSERT OR REPLACE INTO daily_stats`.  No value is supplied for the
primary key `id`, and `daily_stats` has no other uniqueness constraint,
so the statement never hits a conflict: it appends a fresh row with the
next autoincrement id. -/
def update_daily_stats (db : DB) (sid : String) (d : Int) : DB :=
  let rows := db.departures.filter
    (fun r => decide (r.station_id = sid ∧ dayOf r.created_at = d))
  let s := dailyStatsQuery rows
  { db with
    daily_stats := db.daily_stats ++
      [{ id := db.nextStatId, station_id := sid, date := d,
         total_departures := s.1, delayed_departures := s.2.1,
         avg_delay_minutes := pyOrRat s.2.2.1,
         max_delay_minutes := pyOrInt s.2.2.2 }],
    nextStatId := db.nextStatId + 1 }

/-! ## Rounding

`round(x, 1)` in Python rounds half to even; `ROUND(x, 1)` in SQLite
rounds half away from zero.  Both are modelled exactly on rationals. -/

/-- Round a rational to the nearest integer, ties to even (Python
`round`). -/
def roundHalfEvenInt (q : Rat) : Int :=
  let f : Int := ratFloor q
  let frac : Rat := q - (f : Rat)
  if frac < 1/2 then f
  else if 1/2 < frac then f + 1
  else if f % 2 = 0 then f else f + 1

/-- Python `round(q, 1)`. -/
def pyRound1 (q : Rat) : Rat := ((roundHalfEvenInt (10 * q) : Int) : Rat) / 10

/-- Round a rational to the nearest integer, ties away from zero (SQLite
`ROUND`). -/
def roundAwayInt (q : Rat) : Int :=
  if 0 ≤ q then ratFloor (q + 1/2) else -(ratFloor (-q + 1/2))

/-- SQLite `ROUND(q, 1)`. -/
def sqliteRound1 (q : Rat) : Rat := ((roundAwayInt (10 * q) : Int) : Rat) / 10

/-! ## Handler `GET /api/analytics/stations` (`get_station_analytics`) -/

/-- The 7-day window predicate of the analytics query:
`d.timestamp >= datetime('now', '-7 days')`. -/
def windowP (now : Int) (r : DepartureRow) : Bool :=
  decide (now - 604800 ≤ r.timestamp)

/-- The distinct values of a list in order of first appearance (the
grouping keys of `GROUP BY`). -/
def distinctL (l : List String) : List String :=
  l.foldl (fun acc d => if d ∈ acc then acc else acc ++ [d]) []

/-- One output group of the analytics query. -/
structure DestStat where
  destination : String
  total : Nat
  delayed : Nat
  avg_abs : Rat
deriving DecidableEq

/-- The aggregate query of `get_station_analytics`: rows of the last 7
days grouped by destination, with `COUNT(*)`,
`COUNT(CASE WHEN d.delay != 0 THEN 1 END)` and
`ROUND(COALESCE(AVG(ABS(d.delay)), 0), 1)` per group. -/
def analyticsQuery (db : DB) (now : Int) : List DestStat :=
  let recent := db.departures.filter (windowP now)
  (distinctL (recent.map (fun r => r.destination))).map (fun dname =>
    let g := recent.filter (fun r => decide (r.destination = dname))
    { destination := dname,
      total := g.length,
      delayed := (g.filter (fun r => decide (r.delay ≠ 0))).length,
      avg_abs := sqliteRound1 (if g.isEmpty then 0
        else (((g.map (fun r => (r.delay.natAbs : Int))).sum : Int) : Rat) /
             (g.length : Rat)) })

/-- Stable insertion into a list sorted by descending total (the
`ORDER BY total_departures DESC` step). -/
def insertDesc (x : DestStat) : List DestStat → List DestStat
  | [] => [x]
  | y :: r => if x.total ≤ y.total then y :: insertDesc x r else x :: y :: r

/-- Stable sort by descending total. -/
def sortDesc : List DestStat → List DestStat
  | [] => []
  | x :: r => insertDesc x (sortDesc r)

/-- JSON rendering of one analytics group, mirroring the dict literal:
`stat[0] or 'Unknown'` etc.  On the numeric fields `x or 0` is the
identity of the model since the only falsy number 0 is mapped to 0. -/
def destStatToJson (s : DestStat) : JVal :=
  JVal.obj [("destination", JVal.str (pyOrStr s.destination "Unknown")),
            ("total_departures", JVal.int (s.total : Int)),
            ("delayed_trains", JVal.int (s.delayed : Int)),
            ("avg_delay_minutes", JVal.rat (pyOrRat (some s.avg_abs)))]

/-- The error envelope of `get_station_analytics`. -/
def analyticsErrorBody (ts e : String) : JVal :=
  JVal.obj [("status", JVal.str "Error"), ("timestamp", JVal.str ts),
            ("error", JVal.str e), ("data", JVal.arr [])]

/-- Handler `GET /api/analytics/stations`.  `dbr` is the result of
opening the database (a storage failure is `Except.error`). -/
def get_station_analytics (dbr : Except String DB) (now : Int)
    (ts : String) : Nat × JVal :=
  match dbr with
  | Except.error e => (500, analyticsErrorBody ts e)
  | Except.ok db =>
    let analytics := (sortDesc (analyticsQuery db now)).map destStatToJson
    if analytics.isEmpty then
      (200, JVal.obj [("status", JVal.str "No data available"),
                      ("timestamp", JVal.str ts), ("data", JVal.arr [])])
    else
      (200, JVal.obj [("status", JVal.str "Data available"),
                      ("timestamp", JVal.str ts),
                      ("data", JVal.arr analytics)])

/-! ## Handler `GET /api/performance/<station>` (`get_performance_data`) -/

/-- The columns of the `departures` table, from `create_tables`. -/
def depColNames : List String :=
  ["id", "station_id", "destination", "platform", "minutes", "direction",
   "color", "length", "bike_flag", "delay", "timestamp", "date",
   "created_at"]

/-- An SQL cell value, for distinct-counting. -/
inductive ColVal where
  | i : Int → ColVal
  | s : String → ColVal
  | q : Rat → ColVal
  | null : ColVal
deriving DecidableEq

/-- Projection of a departures row onto a column by name.  The catch-all
case is unreachable for names that pass resolution against
`depColNames`. -/
def depColVal (r : DepartureRow) : String → ColVal
  | "id" => ColVal.i (r.id : Int)
  | "station_id" => ColVal.s r.station_id
  | "destination" => ColVal.s r.destination
  | "platform" => match r.platform with
                  | none => ColVal.null
                  | some p => ColVal.s p
  | "minutes" => ColVal.i r.minutes
  | "direction" => ColVal.s r.direction
  | "color" => match r.color with
               | none => ColVal.null
               | some c => ColVal.s c
  | "length" => match r.length with
                | none => ColVal.null
                | some n => ColVal.i n
  | "bike_flag" => match r.bike_flag with
                   | none => ColVal.null
                   | some n => ColVal.i n
  | "delay" => ColVal.i r.delay
  | "timestamp" => ColVal.q r.timestamp
  | "date" => ColVal.i r.date
  | "created_at" => ColVal.q r.created_at
  | _ => ColVal.null

/-- Number of distinct values in a list. -/
def distinctCount (vs : List ColVal) : Nat :=
  (vs.foldl (fun acc v => if v ∈ acc then acc else acc ++ [v]) []).length

/-- `COUNT(DISTINCT c)` over a list of departures rows.  SQLite first
resolves the column name against the table schema and raises
`OperationalError: no such column: c` when it is not a column of
`departures`. -/
def countDistinctCol (c : String) (rows : List DepartureRow) :
    Except String Nat :=
  if c ∈ depColNames then
    Except.ok (distinctCount (rows.map (fun r => depColVal r c)))
  else
    Except.error ("no such column: " ++ c)

/-- The on-time rate expression of `get_performance_data`:
`round((stats[1] / stats[0] * 100) if stats[0] > 0 else 0, 1)`. -/
def onTimeRate (total onTime : Nat) : Rat :=
  pyRound1 (if 0 < total then ((onTime : Rat) / (total : Rat)) * 100 else 0)

/-- The error envelope of `get_performance_data`:
`{"status": "error", "error": str(e)}` with HTTP 500 — no data field. -/
def perfErrorBody (e : String) : JVal :=
  JVal.obj [("status", JVal.str "error"), ("error", JVal.str e)]

/-- Handler `GET /api/performance/<station>`.  The first query computes
today's totals for the station; the second query selects
`COUNT(DISTINCT train_id)` over today's departures, and `train_id` is
resolved against the schema before anything is counted. -/
def get_performance_data (dbr : Except String DB) (sid : String)
    (now : Int) : Nat × JVal :=
  match dbr with
  | Except.error e => (500, perfErrorBody e)
  | Except.ok db =>
    let mine := db.departures.filter
      (fun r => decide (r.station_id = sid ∧ dayOf r.timestamp = dayOf now))
    let total := mine.length
    let onTime := (mine.filter (fun r => decide (r.delay = 0))).length
    let avgDelay : Option Rat :=
      if mine.isEmpty then none
      else some ((((mine.map (fun r => r.delay)).sum : Int) : Rat) /
                 (total : Rat))
    let todays := db.departures.filter
      (fun r => decide (dayOf r.timestamp = dayOf now))
    match countDistinctCol "train_id" todays with
    | Except.error e => (500, perfErrorBody e)
    | Except.ok activeTrains =>
      let delayed := (todays.filter (fun r => decide (0 < r.delay))).length
      (200, JVal.obj [("status", JVal.str "success"),
        ("data", JVal.obj [
          ("ridership", JVal.int (total : Int)),
          ("onTimeRate", JVal.rat (onTimeRate total onTime)),
          ("avgDelay", JVal.rat (pyRound1 (pyOrRat avgDelay))),
          ("systemStatus", JVal.obj [
            ("activeTrains", JVal.int (activeTrains : Int)),
            ("delays", JVal.int (delayed : Int)),
            ("elevators", JVal.obj [("total", JVal.int 50),
                                    ("down", JVal.int 2)]),
            ("parking", JVal.obj [("capacity", JVal.int 1000),
                                  ("available", JVal.int 850)])])])])

/-! ## Scenario helpers and concrete data used in the statements -/

/-- Insert a batch of departures, each with its own wall-clock time, by
repeated `save_departure`. -/
def foldSaves (db : DB) (l : List (DepartureData × Int)) : DB :=
  l.foldl (fun acc p => save_departure acc p.1 p.2) db

/-- The rows produced by a batch of inserts when the next autoincrement
id is `n`. -/
def rowsFrom (n : Nat) : List (DepartureData × Int) → List DepartureRow
  | [] => []
  | p :: r => depRowOf n p.1 p.2 :: rowsFrom (n + 1) r

/-- The stored delays of a batch of inserts (`.get('delay', 0)`). -/
def delaysOf (l : List (DepartureData × Int)) : List Int :=
  l.map (fun p => p.1.delay.getD 0)

/-- The strictly positive stored delays of a batch of inserts. -/
def posDelaysOf (l : List (DepartureData × Int)) : List Int :=
  (delaysOf l).filter (fun x => decide (0 < x))

/-- The observable content of a `daily_stats` row (everything except the
autoincrement id). -/
def statProj (r : DailyStatRow) : String × Int × Nat × Nat × Rat × Int :=
  (r.station_id, r.date, r.total_departures, r.delayed_departures,
   r.avg_delay_minutes, r.max_delay_minutes)

/-- A database holding one departure for station PLZA saved at time 0
with delay 3. -/
def dbPlza : DB :=
  save_departure emptyDB
    { station_id := "PLZA", destination := "Richmond", platform := none,
      minutes := 5, direction := "North", color := none, length := none,
      bike_flag := none, delay := some 3 } 0

/-- A departures row observed at time 1 second (day 0). -/
def rowDayZero : DepartureRow :=
  { id := 1, station_id := "PLZA", destination := "Richmond",
    platform := none, minutes := 5, direction := "North", color := none,
    length := none, bike_flag := none, delay := 0, timestamp := 1,
    date := 0, created_at := 1 }

/-- A database whose only departure is more than 7 days older than the
query time of day 10 (864000 seconds) used in the analytics witness. -/
def dbStale : DB := { emptyDB with departures := [rowDayZero] }

/-- A batch of two departures for station A on day 0, the first with
delay 3, the second with no delay key. -/
def batchA : List (DepartureData × Int) :=
  [({ station_id := "A", destination := "R", platform := none,
      minutes := 5, direction := "N", color := none, length := none,
      bike_flag := none, delay := some 3 }, 0),
   ({ station_id := "A", destination := "R", platform := none,
      minutes := 2, direction := "N", color := none, length := none,
      bike_flag := none, delay := none }, 43200)]

/-- An estimate with the unparseable minutes value "abc". -/
def badEstimate : UpEstimate :=
  { minutes := "abc", platform := "1", direction := "N", length := "10" }

/-- An upstream payload whose single estimate is `badEstimate`. -/
def badPayload : UpDeparturesPayload :=
  { root := some { station := some [{ etd := some [{ destination := "X", estimate := [badEstimate] }] }] } }

/-! ## Helper lemmas -/

/-- Filtering twice with the same predicate filters once. -/
theorem filter_idem {α : Type} (p : α → Bool) (l : List α) :
    (l.filter p).filter p = l.filter p := by
  induction l with
  | nil => rfl
  | cons a t ih =>
    by_cases h : p a = true <;> simp [List.filter_cons, h, ih]

/-- `x or 0` on a present SQL real is the value itself. -/
theorem pyOrRat_some (q : Rat) : pyOrRat (some q) = q := by
  by_cases h : q = 0 <;> simp [pyOrRat, h]

/-- `x or 0` on a present SQL integer is the value itself. -/
theorem pyOrInt_some (n : Int) : pyOrInt (some n) = n := by
  by_cases h : n = 0 <;> simp [pyOrInt, h]

/-! ## C1 -/

/-- C1: the claim says the per-station performance snapshot completes
successfully for every store state.  In fact the system-status query
selects `COUNT(DISTINCT train_id)` from `departures`, which has no
`train_id` column, so for every database state the handler returns the
HTTP 500 error envelope `{"status": "error", "error": "no such column:
train_id"}` and never the performance object. -/
theorem c1_performance_snapshot_never_succeeds :
    ∀ (db : DB) (sid : String) (now : Int),
      get_performance_data (Except.ok db) sid now =
        (500, perfErrorBody "no such column: train_id") :=
  fun _ _ _ => rfl

/-! ## C6 -/

/-- C6: the claim says recomputing daily stats twice for the same
(station, date) key leaves exactly one `daily_stats` row for that key.
In fact `daily_stats` has no UNIQUE constraint on `(station_id, date)` —
its only key is the autoincrement `id` — so `INSERT OR REPLACE` never
replaces: starting from a store with one PLZA departure on day 0, two
recomputations for (PLZA, day 0) leave two rows for that key. -/
theorem c6_recompute_twice_leaves_two_rows :
    ((update_daily_stats (update_daily_stats dbPlza "PLZA" 0) "PLZA" 0).daily_stats.filter
        (fun r => decide (r.station_id = "PLZA" ∧ r.date = 0))).length = 2 := by
  decide

/-! ## C7 -/

/-- C7: the on-time rate expression is guarded against division by zero:
for a zero total it yields 0 for any on-time count, the example
total = 10, on_time = 7 yields 70.0, and for a positive total it equals
on_time / total as a percentage rounded to one decimal. -/
theorem c7_on_time_rate_guarded :
    (∀ onTime : Nat, onTimeRate 0 onTime = 0)
    ∧ onTimeRate 10 7 = 70
    ∧ (∀ total onTime : Nat, 0 < total →
        onTimeRate total onTime =
          pyRound1 (((onTime : Rat) / (total : Rat)) * 100)) := by
  refine ⟨?_, ?_, ?_⟩
  · intro onTime
    norm_num [onTimeRate, pyRound1, roundHalfEvenInt, ratFloor]
  · norm_num [onTimeRate, pyRound1, roundHalfEvenInt, ratFloor]
  · intro total onTime ht
    unfold onTimeRate
    rw [if_pos ht]

/-- Witness for C7: the third conjunct applied at total = 10,
on_time = 7. -/
theorem c7_on_time_rate_guarded_witness :
    onTimeRate 10 7 = pyRound1 ((((7 : Nat) : Rat) / ((10 : Nat) : Rat)) * 100) :=
  c7_on_time_rate_guarded.2.2 10 7 (by decide)

/-! ## C10 -/

/-- C10: when the upstream payload has the `root` and `station` keys but
the station key maps to an empty list, `data['root']['station'][0]`
raises `IndexError: list index out of range` and the handler returns the
HTTP 500 error envelope, not an empty-departures success response. -/
theorem c10_empty_station_list_errors :
    ∀ ts : String,
      get_departures (Except.ok { root := some { station := some [] } }) ts =
        (500, departuresErrorBody ts "list index out of range") :=
  fun _ => rfl

/-! ## C9 -/

/-- C9 counterexample: the claim says every handler's error envelope
contains a status field, an error message and empty data.  The stations
handler's error body `{"error": str(e)}` has no status field and no data
field, and the performance handler's error body has no data field. -/
theorem c9_counterexample_stations_envelope :
    (get_stations (Except.error "boom")).1 = 500
    ∧ jGet (get_stations (Except.error "boom")).2 "status" = none
    ∧ jGet (get_stations (Except.error "boom")).2 "data" = none
    ∧ jGet (get_performance_data (Except.error "boom") "PLZA" 0).2 "data" = none :=
  ⟨rfl, rfl, rfl, rfl⟩

/-- C9 amended: every handler converts transport, malformed-payload and
storage errors into a JSON error envelope with the error message and
HTTP 500; the departures and analytics handlers' envelopes additionally
carry a status field and an empty data collection, the performance
handler's envelope carries a status field but no data field, and the
stations handler's envelope carries only the error message. -/
theorem c9_error_envelopes :
    ∀ (e ts sid : String) (now : Int),
      (get_stations (Except.error e) = (500, JVal.obj [("error", JVal.str e)])
        ∧ jGet (get_stations (Except.error e)).2 "error" = some (JVal.str e)
        ∧ jGet (get_stations (Except.error e)).2 "status" = none)
      ∧ (get_departures (Except.error e) ts = (500, departuresErrorBody ts e)
        ∧ get_departures (Except.ok badPayload) ts =
            (500, departuresErrorBody ts "invalid literal for int() with base 10: abc")
        ∧ jGet (departuresErrorBody ts e) "status" = some (JVal.str "Error")
        ∧ jGet (departuresErrorBody ts e) "error" = some (JVal.str e)
        ∧ jGet (departuresErrorBody ts e) "departures" = some (JVal.arr []))
      ∧ (get_station_analytics (Except.error e) now ts = (500, analyticsErrorBody ts e)
        ∧ jGet (analyticsErrorBody ts e) "status" = some (JVal.str "Error")
        ∧ jGet (analyticsErrorBody ts e) "error" = some (JVal.str e)
        ∧ jGet (analyticsErrorBody ts e) "data" = some (JVal.arr []))
      ∧ (get_performance_data (Except.error e) sid now = (500, perfErrorBody e)
        ∧ jGet (perfErrorBody e) "status" = some (JVal.str "error")
        ∧ jGet (perfErrorBody e) "error" = some (JVal.str e)
        ∧ jGet (perfErrorBody e) "data" = none) :=
  fun _ _ _ _ =>
    ⟨⟨rfl, rfl, rfl⟩, ⟨rfl, rfl, rfl, rfl, rfl⟩, ⟨rfl, rfl, rfl, rfl⟩,
     ⟨rfl, rfl, rfl, rfl⟩⟩

/-! ## C2 -/

/-- C2: when the upstream estimate's minutes field is the sentinel
"Leaving" the normalized record's minutes equals 0, and for every other
minutes value that parses as an integer the normalized minutes equals
the parsed integer (assuming the estimate's length field parses, since a
length parse failure aborts the record). -/
theorem c2_minutes_normalized :
    ∀ (ts dest : String) (e : UpEstimate) (len : Int),
      pyInt e.length = Except.ok len →
      (e.minutes = "Leaving" →
        mkDeparture ts dest e = Except.ok
          { timestamp := ts, destination := dest, minutes := 0,
            platform := e.platform, direction := e.direction, delay := 0,
            length := len })
      ∧ (∀ n : Int, e.minutes ≠ "Leaving" → pyInt e.minutes = Except.ok n →
        mkDeparture ts dest e = Except.ok
          { timestamp := ts, destination := dest, minutes := n,
            platform := e.platform, direction := e.direction, delay := 0,
            length := len }) := by
  intro ts dest e len hlen
  constructor
  · intro hm
    have h0 : pyInt "0" = Except.ok 0 := rfl
    simp [mkDeparture, hm, h0, hlen]
  · intro n hne hn
    simp [mkDeparture, if_pos hne, hn, hlen]

/-- Witness for C2: a "Leaving" estimate normalizes to minutes 0, and an
estimate with minutes "5" normalizes to minutes 5. -/
theorem c2_minutes_normalized_witness :
    mkDeparture "t" "SF"
        { minutes := "Leaving", platform := "1", direction := "N",
          length := "10" } = Except.ok
      { timestamp := "t", destination := "SF", minutes := 0,
        platform := "1", direction := "N", delay := 0, length := 10 }
    ∧ mkDeparture "t" "SF"
        { minutes := "5", platform := "1", direction := "N",
          length := "10" } = Except.ok
      { timestamp := "t", destination := "SF", minutes := 5,
        platform := "1", direction := "N", delay := 0, length := 10 } :=
  ⟨(c2_minutes_normalized "t" "SF"
      { minutes := "Leaving", platform := "1", direction := "N",
        length := "10" } 10 rfl).1 rfl,
   (c2_minutes_normalized "t" "SF"
      { minutes := "5", platform := "1", direction := "N",
        length := "10" } 10 rfl).2 5 (by decide) rfl⟩

/-! ## C3 -/

/-- C3: an upstream payload missing the root key, the station key, or
the etd key yields a success response (HTTP 200, status "Data
available") with an empty departures list. -/
theorem c3_missing_keys_empty_success :
    ∀ (p : UpDeparturesPayload) (ts : String),
      (p.root = none
        ∨ (∃ r, p.root = some r ∧ r.station = none)
        ∨ (∃ r s0 rest, p.root = some r ∧ r.station = some (s0 :: rest)
            ∧ s0.etd = none)) →
      get_departures (Except.ok p) ts =
        (200, JVal.obj [("status", JVal.str "Data available"),
                        ("timestamp", JVal.str ts),
                        ("departures", JVal.arr [])]) := by
  intro p ts h
  rcases p with ⟨proot⟩
  rcases h with h | ⟨r, hr, hs⟩ | ⟨r, s0, rest, hr, hs, he⟩
  · obtain rfl : proot = none := h
    rfl
  · rcases r with ⟨rstation⟩
    obtain rfl : proot = some ⟨rstation⟩ := hr
    obtain rfl : rstation = none := hs
    rfl
  · rcases r with ⟨rstation⟩
    rcases s0 with ⟨setd⟩
    obtain rfl : proot = some ⟨rstation⟩ := hr
    obtain rfl : rstation = some (⟨setd⟩ :: rest) := hs
    obtain rfl : setd = none := he
    rfl

/-- Witness for C3: a payload with no root key yields the empty success
response. -/
theorem c3_missing_keys_empty_success_witness :
    get_departures (Except.ok { root := none }) "t" =
      (200, JVal.obj [("status", JVal.str "Data available"),
                      ("timestamp", JVal.str "t"),
                      ("departures", JVal.arr [])]) :=
  c3_missing_keys_empty_success { root := none } "t" (Or.inl rfl)

/-! ## C4 -/

/-- Rows kept by the first upsert's delete phase never match the key, so
a second filter for the key finds nothing. -/
theorem filter_ne_then_eq_nil (l : List StationRow) (i : String) :
    (l.filter (fun r => decide (r.id ≠ i))).filter
      (fun r => decide (r.id = i)) = [] := by
  induction l with
  | nil => rfl
  | cons a t ih =>
    by_cases h : a.id = i <;> simp [List.filter_cons, h, ih]

/-- C4: upserting the same station identifier twice leaves exactly one
stations row for that identifier, carrying the attributes of the second
upsert. -/
theorem c4_station_upsert_keeps_latest :
    ∀ (db : DB) (s1 s2 : StationData), s1.id = s2.id →
      (save_station (save_station db s1) s2).stations.filter
          (fun r => decide (r.id = s2.id)) = [stationRowOf s2] := by
  intro db s1 s2 h
  simp only [save_station, List.filter_append]
  rw [filter_ne_then_eq_nil, filter_ne_then_eq_nil]
  simp [stationRowOf]

/-- Witness for C4: upserting id "EMBR" twice with different names
leaves the single row of the second upsert. -/
theorem c4_station_upsert_keeps_latest_witness :
    (save_station (save_station emptyDB
        { id := "EMBR", name := "Old", abbr := "EM", city := none,
          county := none, state := none, zipcode := none })
        { id := "EMBR", name := "Embarcadero", abbr := "EMBR",
          city := some "SF", county := none, state := none,
          zipcode := none }).stations.filter
      (fun r => decide (r.id = "EMBR")) =
      [stationRowOf
        { id := "EMBR", name := "Embarcadero", abbr := "EMBR",
          city := some "SF", county := none, state := none,
          zipcode := none }] :=
  c4_station_upsert_keeps_latest emptyDB
    { id := "EMBR", name := "Old", abbr := "EM", city := none,
      county := none, state := none, zipcode := none }
    { id := "EMBR", name := "Embarcadero", abbr := "EMBR",
      city := some "SF", county := none, state := none, zipcode := none }
    rfl

/-! ## C8 -/

/-- C8: the 7-day destination analytics depends only on the departures
of the last 7 days — dropping every row older than 7 days from the
store does not change the response — and when no row is within the
window the response is HTTP 200 with status "No data available" and an
empty data list, not an error. -/
theorem c8_analytics_window_and_empty :
    ∀ (db : DB) (now : Int) (ts : String),
      get_station_analytics (Except.ok db) now ts =
        get_station_analytics
          (Except.ok { db with departures := db.departures.filter (windowP now) })
          now ts
      ∧ (db.departures.filter (windowP now) = [] →
          get_station_analytics (Except.ok db) now ts =
            (200, JVal.obj [("status", JVal.str "No data available"),
                            ("timestamp", JVal.str ts),
                            ("data", JVal.arr [])])) := by
  intro db now ts
  have hq : analyticsQuery
      { db with departures := db.departures.filter (windowP now) } now =
      analyticsQuery db now := by
    simp only [analyticsQuery]
    rw [filter_idem]
  constructor
  · simp only [get_station_analytics, hq]
  · intro h
    have hq2 : analyticsQuery db now = [] := by
      simp only [analyticsQuery]
      rw [h]
      rfl
    simp only [get_station_analytics, hq2]
    rfl

/-- Witness for C8: a store whose only departure is 10 days old yields
the empty success response when queried at day 10. -/
theorem c8_analytics_window_and_empty_witness :
    get_station_analytics (Except.ok dbStale) 864000 "t" =
      (200, JVal.obj [("status", JVal.str "No data available"),
                      ("timestamp", JVal.str "t"),
                      ("data", JVal.arr [])]) :=
  (c8_analytics_window_and_empty dbStale 864000 "t").2 (by decide)

/-! ## C5 supporting lemmas -/

/-- A batch insert appends exactly the generated rows. -/
theorem foldSaves_departures :
    ∀ (l : List (DepartureData × Int)) (db : DB),
      (foldSaves db l).departures = db.departures ++ rowsFrom db.nextDepId l := by
  intro l
  induction l with
  | nil => intro db; simp [foldSaves, rowsFrom]
  | cons p r ih =>
    intro db
    have h1 : foldSaves db (p :: r) = foldSaves (save_departure db p.1 p.2) r := rfl
    rw [h1, ih]
    simp [save_departure, rowsFrom, List.append_assoc]

/-- A batch insert does not touch `daily_stats`. -/
theorem foldSaves_daily_stats :
    ∀ (l : List (DepartureData × Int)) (db : DB),
      (foldSaves db l).daily_stats = db.daily_stats := by
  intro l
  induction l with
  | nil => intro db; rfl
  | cons p r ih =>
    intro db
    have h1 : foldSaves db (p :: r) = foldSaves (save_departure db p.1 p.2) r := rfl
    rw [h1, ih]
    rfl

/-- A batch of N inserts generates N rows. -/
theorem rowsFrom_length :
    ∀ (l : List (DepartureData × Int)) (n : Nat),
      (rowsFrom n l).length = l.length := by
  intro l
  induction l with
  | nil => intro n; rfl
  | cons p r ih => intro n; simp [rowsFrom, ih]

/-- When every inserted departure is for the given station and day, the
day filter of `update_daily_stats` keeps all generated rows. -/
theorem rowsFrom_filter_matches (sid : String) (d : Int) :
    ∀ (l : List (DepartureData × Int)) (n : Nat),
      (∀ p ∈ l, p.1.station_id = sid ∧ dayOf p.2 = d) →
      (rowsFrom n l).filter
        (fun r => decide (r.station_id = sid ∧ dayOf r.created_at = d)) =
        rowsFrom n l := by
  intro l
  induction l with
  | nil => intro n _; rfl
  | cons p r ih =>
    intro n hall
    have hp := hall p (List.mem_cons_self p r)
    have ht : ∀ q ∈ r, q.1.station_id = sid ∧ dayOf q.2 = d :=
      fun q hq => hall q (List.mem_cons_of_mem p hq)
    have hc : decide ((depRowOf n p.1 p.2).station_id = sid ∧
        dayOf (depRowOf n p.1 p.2).created_at = d) = true := by
      simp [depRowOf, hp.1, hp.2]
    simp only [rowsFrom, List.filter_cons, hc, if_true]
    rw [ih (n + 1) ht]

/-- The delays of the generated rows are the stored delays of the
batch. -/
theorem rowsFrom_map_delay :
    ∀ (l : List (DepartureData × Int)) (n : Nat),
      (rowsFrom n l).map (fun r => r.delay) = delaysOf l := by
  intro l
  induction l with
  | nil => intro n; rfl
  | cons p r ih => intro n; simp [rowsFrom, delaysOf, depRowOf, ih]

/-- Filtering rows on positive delay and projecting to the delay equals
projecting first and filtering the integers. -/
theorem filter_pos_map_delay :
    ∀ (rows : List DepartureRow),
      ((rows.filter (fun r => decide (0 < r.delay))).map (fun r => r.delay)) =
        (rows.map (fun r => r.delay)).filter (fun x => decide (0 < x)) := by
  intro rows
  induction rows with
  | nil => rfl
  | cons a t ih =>
    by_cases h : 0 < a.delay <;> simp [List.filter_cons, h, ih]

/-- Folding max over delays clamped at zero equals folding max over the
positive delays only, for any nonnegative accumulator. -/
theorem foldl_max_clamped :
    ∀ (xs : List Int) (a : Int), 0 ≤ a →
      (xs.map (fun x => if 0 < x then x else 0)).foldl max a =
        (xs.filter (fun x => decide (0 < x))).foldl max a := by
  intro xs
  induction xs with
  | nil => intro a _; rfl
  | cons x r ih =>
    intro a ha
    by_cases h : 0 < x
    · have hd : decide (0 < x) = true := by simpa using h
      simp [hd, h]
      exact ih (max a x) (le_trans ha (le_max_left a x))
    · have hd : decide (0 < x) = false := by simpa using h
      simp [hd, h]
      rw [max_eq_left ha]
      exact ih a ha

/-- Two lists of equal length are equally empty. -/
theorem isEmpty_of_length_eq {α β : Type} (xs : List α) (ys : List β) :
    xs.length = ys.length → xs.isEmpty = ys.isEmpty := by
  cases xs <;> cases ys <;> simp_all

/-- The aggregate query of `update_daily_stats` evaluated on a batch of
generated rows, expressed through the stored delays of the batch. -/
theorem dailyStatsQuery_rowsFrom (l : List (DepartureData × Int)) (n : Nat) :
    dailyStatsQuery (rowsFrom n l) =
      (l.length, (posDelaysOf l).length,
       (if (posDelaysOf l).isEmpty then none
        else some ((((posDelaysOf l).sum : Int) : Rat) /
                   ((posDelaysOf l).length : Rat))),
       (if (rowsFrom n l).isEmpty then none
        else some ((posDelaysOf l).foldl max 0))) := by
  have hdel : (rowsFrom n l).map (fun r => r.delay) = delaysOf l :=
    rowsFrom_map_delay l n
  have hfil : ((rowsFrom n l).filter (fun r => decide (0 < r.delay))).map
      (fun r => r.delay) = posDelaysOf l := by
    rw [filter_pos_map_delay, hdel]
    rfl
  have hlen2 : ((rowsFrom n l).filter (fun r => decide (0 < r.delay))).length =
      (posDelaysOf l).length := by
    rw [← hfil, List.length_map]
  have hempty : ((rowsFrom n l).filter (fun r => decide (0 < r.delay))).isEmpty =
      (posDelaysOf l).isEmpty :=
    isEmpty_of_length_eq _ _ hlen2
  have hmap2 : (rowsFrom n l).map (fun r => if 0 < r.delay then r.delay else 0) =
      (delaysOf l).map (fun x => if 0 < x then x else 0) := by
    rw [← hdel, List.map_map]
    rfl
  simp only [dailyStatsQuery, Prod.mk.injEq]
  refine ⟨rowsFrom_length l n, hlen2, ?_, ?_⟩
  · rw [hempty]
    by_cases hp : (posDelaysOf l).isEmpty
    · simp [hp]
    · simp only [hp, if_false, Bool.false_eq_true]
      rw [hfil, hlen2]
  · by_cases hr : (rowsFrom n l).isEmpty
    · simp [hr]
    · simp only [hr, if_false, Bool.false_eq_true]
      rw [hmap2, foldl_max_clamped (delaysOf l) 0 le_rfl]
      rfl

/-! ## C5 -/

/-- C5: inserting a batch of N departures for one station and day into a
store with no prior departures for that station and day, then
recomputing daily stats, appends one DailyStat whose total is N, whose
delayed count is the number of inserted rows with delay > 0, whose
average delay is the mean over only the delayed rows (0 when none is
delayed), and whose maximum delay is the maximum over only the delayed
rows (0 when none is delayed). -/
theorem c5_recompute_matches_inserts :
    ∀ (db : DB) (sid : String) (d : Int) (l : List (DepartureData × Int)),
      db.departures.filter
          (fun r => decide (r.station_id = sid ∧ dayOf r.created_at = d)) = [] →
      (∀ p ∈ l, p.1.station_id = sid ∧ dayOf p.2 = d) →
      (update_daily_stats (foldSaves db l) sid d).daily_stats.map statProj =
        db.daily_stats.map statProj ++
          [(sid, d, l.length, (posDelaysOf l).length,
            (if (posDelaysOf l).isEmpty then (0 : Rat)
             else (((posDelaysOf l).sum : Int) : Rat) /
                  ((posDelaysOf l).length : Rat)),
            (posDelaysOf l).foldl max 0)] := by
  intro db sid d l h0 hall
  have hrows : (foldSaves db l).departures.filter
      (fun r => decide (r.station_id = sid ∧ dayOf r.created_at = d)) =
      rowsFrom db.nextDepId l := by
    rw [foldSaves_departures, List.filter_append, h0, List.nil_append,
        rowsFrom_filter_matches sid d l db.nextDepId hall]
  simp only [update_daily_stats]
  rw [hrows, dailyStatsQuery_rowsFrom, foldSaves_daily_stats]
  simp only [List.map_append, List.map_cons, List.map_nil, statProj]
  congr 2
  simp only [Prod.mk.injEq, true_and]
  refine ⟨?_, ?_⟩
  · by_cases hp : (posDelaysOf l).isEmpty
    · simp [hp, pyOrRat]
    · simp [hp, pyOrRat_some]
  · by_cases hr : (rowsFrom db.nextDepId l).isEmpty
    · have hl : l = [] := by
        cases l with
        | nil => rfl
        | cons p r => simp [rowsFrom] at hr
      subst hl
      simp [pyOrInt, posDelaysOf, delaysOf, rowsFrom]
    · simp [hr, pyOrInt_some]

/-- Witness for C5: inserting the two departures of `batchA` (delays 3
and 0) for station A on day 0 into the empty store and recomputing
yields a DailyStat with total 2, delayed 1, average 3 and maximum 3. -/
theorem c5_recompute_matches_inserts_witness :
    (update_daily_stats (foldSaves emptyDB batchA) "A" 0).daily_stats.map statProj =
      [("A", 0, 2, 1, (3 : Rat), (3 : Int))] := by
  have h := c5_recompute_matches_inserts emptyDB "A" 0 batchA rfl (by decide)
  rw [h]
  norm_num [posDelaysOf, delaysOf, batchA, emptyDB, statProj]

end BartApp
